import Mathlib

set_option maxRecDepth 8000

namespace FlaskSample

/-! Shallow embedding of `app/app.py` (Takuya338/flask_sample): a session-based
login flow over a MySQL `users` table.  Pure functions model the route handlers
and the seed routine; database failures are explicit boolean inputs (the Python
code catches the corresponding exceptions); werkzeug's salted password hashing
is an external library and is abstracted by a hash token recording the salt and
the hashed password. -/

/-- Abstract model of werkzeug's salted password hash: the token records the
salt and the password it was generated from, so two hashes of the same password
with different salts differ, yet both verify against that password. -/
structure PasswordHash where
  salt : Nat
  pw : String
deriving DecidableEq, Repr

/-- Model of `werkzeug.security.generate_password_hash`; the salt is made an
explicit argument in place of the library's internal randomness. -/
def generate_password_hash (password : String) (salt : Nat) : PasswordHash :=
  { salt := salt, pw := password }

/-- Model of `werkzeug.security.check_password_hash`. -/
def check_password_hash (h : PasswordHash) (password : String) : Bool :=
  h.pw == password

/-- One row of the `users` table: (id, name, email, password_hash). -/
structure UserRow where
  id : Nat
  name : String
  email : String
  password_hash : PasswordHash
deriving DecidableEq, Repr

/-- The `users` table plus the auto-increment counter for new ids. -/
structure Db where
  users : List UserRow
  nextId : Nat
deriving DecidableEq, Repr

/-- `User.get_user_by_email` (app.py:33-49): SELECT by email; any database
exception is caught and turned into `None` (`lookupErr` models the exception). -/
def get_user_by_email (lookupErr : Bool) (db : Db) (email : String) :
    Option UserRow :=
  if lookupErr then none
  else db.users.find? (fun r => r.email == email)

/-- `User.get_user_by_id` (app.py:51-67): SELECT by id; any database exception
is caught and turned into `None` (`loadErr` models the exception). -/
def get_user_by_id (loadErr : Bool) (db : Db) (uid : Nat) : Option UserRow :=
  if loadErr then none
  else db.users.find? (fun r => r.id == uid)

/-- Flask-Login's `current_user`: the session stores the user id and the
user loader (`load_user`, app.py:70-73) fetches the row; an unloadable id
yields the anonymous user (`none`). -/
def current_user (loadErr : Bool) (db : Db) (sess : Option Nat) :
    Option UserRow :=
  sess.bind (fun uid => get_user_by_id loadErr db uid)

/-- `current_user.is_authenticated`. -/
def is_authenticated (loadErr : Bool) (db : Db) (sess : Option Nat) : Bool :=
  (current_user loadErr db sess).isSome

/-- The three routed pages a redirect can target. -/
inductive Route
  | index
  | login
  | dashboard
deriving DecidableEq, Repr

/-- A rendered HTTP response: a redirect (with the flash message queued for the
next page, if any) or one of the three rendered templates. -/
inductive Resp
  | redirect (target : Route) (flash : Option (String × String))
  | loginPage (flash : Option (String × String)) (formEmail : String)
  | dashboardPage (name email : String)
  | indexPage
deriving DecidableEq, Repr

/-- Flash on successful login (app.py:185). -/
def success_flash : String × String := ("ログインに成功しました。", "success")

/-- The single generic flash on any failed credential check (app.py:188). -/
def error_flash : String × String :=
  ("メールアドレスまたはパスワードが正しくありません。", "error")

/-- Flash on logout (app.py:205). -/
def logout_flash : String × String := ("ログアウトしました。", "info")

/-- Flask-Login's `login_message` shown when `@login_required` rejects
an unauthenticated request (app.py:23). -/
def login_required_flash : String × String := ("ログインが必要です。", "message")

/-- The email/password fields of `LoginForm` as submitted. -/
structure LoginSubmission where
  email : String
  password : String
deriving DecidableEq, Repr

/-- The `/login` handler (app.py:171-190), after its `ensure_test_users` call:
already-authenticated requesters are redirected to the dashboard; otherwise, if
the form validated (`validated` models `form.validate_on_submit()`), the user
is looked up by email and the password checked against the stored hash; on
match the session is set to that user's id and the response redirects to the
dashboard, on any mismatch the login form is re-rendered with the one generic
error flash.  Returns the response and the resulting session. -/
def login (db : Db) (sess : Option Nat) (validated : Bool)
    (sub : LoginSubmission) (lookupErr loadErr : Bool) : Resp × Option Nat :=
  if is_authenticated loadErr db sess then
    (Resp.redirect Route.dashboard none, sess)
  else if validated then
    match get_user_by_email lookupErr db sub.email with
    | some row =>
        if check_password_hash row.password_hash sub.password then
          (Resp.redirect Route.dashboard (some success_flash), some row.id)
        else
          (Resp.loginPage (some error_flash) sub.email, sess)
    | none => (Resp.loginPage (some error_flash) sub.email, sess)
  else
    (Resp.loginPage none sub.email, sess)

/-- The `/dashboard` handler (app.py:193-197): `@login_required` redirects
unauthenticated requests to the login page with Flask-Login's message;
otherwise the dashboard is rendered with the current user's name and email. -/
def dashboard (db : Db) (sess : Option Nat) (loadErr : Bool) : Resp :=
  match current_user loadErr db sess with
  | some row => Resp.dashboardPage row.name row.email
  | none => Resp.redirect Route.login (some login_required_flash)

/-- The `/logout` handler (app.py:200-206): `@login_required` redirects
unauthenticated requests to the login page; otherwise `logout_user()` clears
the session and the response redirects to the home page.  Returns the
response and the resulting session. -/
def logout (db : Db) (sess : Option Nat) (loadErr : Bool) :
    Resp × Option Nat :=
  if is_authenticated loadErr db sess then
    (Resp.redirect Route.index (some logout_flash), none)
  else
    (Resp.redirect Route.login (some login_required_flash), sess)

/-- The `/` handler (app.py:156-168), after its `ensure_test_users` call:
authenticated requesters are redirected to the dashboard, everyone else gets
the rendered home page. -/
def index (db : Db) (sess : Option Nat) (loadErr : Bool) : Resp :=
  if is_authenticated loadErr db sess then
    Resp.redirect Route.dashboard none
  else
    Resp.indexPage

/-- Append one row with the auto-increment id, as the INSERT at app.py:115-121
does. -/
def insertUser (db : Db) (name email : String) (h : PasswordHash) : Db :=
  { users := db.users ++ [{ id := db.nextId, name := name, email := email,
                            password_hash := h }],
    nextId := db.nextId + 1 }

/-- `create_test_users` (app.py:96-135): count the rows; if the table is empty
insert the two fixed demo users with freshly generated hashes and commit;
return `True` on success (inserting or not), `False` if a database exception
occurred (`dbErr`), in which case nothing is committed.  `s1`, `s2` are the
salts the hash generator draws for the two inserts. -/
def create_test_users (db : Db) (dbErr : Bool) (s1 s2 : Nat) : Db × Bool :=
  if dbErr then (db, false)
  else if db.users.length == 0 then
    let db1 := insertUser db "山田太郎" "yamada@example.com"
      (generate_password_hash "password123" s1)
    let db2 := insertUser db1 "佐藤花子" "sato@example.com"
      (generate_password_hash "password123" s2)
    (db2, true)
  else (db, true)

/-- Per-attempt environment of the seed loop: whether the database errors on
attempt `i`, and the two salts drawn on attempt `i`. -/
structure SeedEnv where
  err : Nat → Bool
  salt1 : Nat → Nat
  salt2 : Nat → Nat

/-- Process-wide state: the `_test_users_initialized` flag (app.py:92) and the
database. -/
structure AppState where
  initDone : Bool
  db : Db
deriving DecidableEq, Repr

/-- Outcome of the seed loop: whether some attempt succeeded, the resulting
database, how many times `create_test_users` was called, and the durations of
the `time.sleep` calls performed. -/
structure SeedRun where
  ok : Bool
  db : Db
  calls : Nat
  sleeps : List Nat
deriving DecidableEq, Repr

/-- The `for attempt in range(5)` loop of `ensure_test_users` (app.py:148-153):
try `create_test_users`; on success stop; on failure sleep 2 seconds and move
to the next attempt.  `fuel` is the number of attempts left, `i` the index of
the current attempt. -/
def seed_attempts (env : SeedEnv) : Nat → Nat → Db → SeedRun
  | 0, _, db => { ok := false, db := db, calls := 0, sleeps := [] }
  | fuel + 1, i, db =>
    let r := create_test_users db (env.err i) (env.salt1 i) (env.salt2 i)
    if r.2 then { ok := true, db := r.1, calls := 1, sleeps := [] }
    else
      let rest := seed_attempts env fuel (i + 1) r.1
      { ok := rest.ok, db := rest.db, calls := rest.calls + 1,
        sleeps := 2 :: rest.sleeps }

/-- `ensure_test_users` (app.py:138-153): fast-path return when the flag is
set; otherwise take the lock, re-check the flag, and run the 5-attempt seed
loop, setting the flag exactly when an attempt succeeded.  Returns the new
state, the number of `create_test_users` calls, and the sleep durations. -/
def ensure_test_users (st : AppState) (env : SeedEnv) :
    AppState × Nat × List Nat :=
  if st.initDone then (st, 0, [])
  else if st.initDone then (st, 0, [])
  else
    let r := seed_attempts env 5 0 st.db
    ({ initDone := r.ok, db := r.db }, r.calls, r.sleeps)

/-! Concurrency model for the lock-guarded initialization: two request
threads each execute `ensure_test_users`; the shared state is the flag, the
mutex `_test_users_lock`, and the database.  A thread's program counter walks
the lines of app.py:138-153. -/

/-- Program counter of one request thread inside `ensure_test_users`:
`start` before the unguarded flag read (app.py:141), `waiting` blocked on
`with _test_users_lock` (app.py:144), `holding` after acquiring, before the
re-check (app.py:145), `critical` inside the seed loop (app.py:148-153),
`done` returned. -/
inductive TPc
  | start
  | waiting
  | holding
  | critical
  | done
deriving DecidableEq, Repr

/-- Shared state of the two-thread system: the seed flag, which thread (if
any) holds the mutex, each thread's program counter, and the database. -/
structure CState where
  flag : Bool
  lock : Option Bool
  pc : Bool → TPc
  db : Db

/-- Replace thread `t`'s program counter. -/
def setPc (s : CState) (t : Bool) (v : TPc) : CState :=
  { s with pc := fun u => if u == t then v else s.pc u }

/-- Interleaving small-step semantics of two threads running
`ensure_test_users` (app.py:138-153). -/
inductive CStep : CState → CState → Prop
  | readTrue (s : CState) (t : Bool) :
      s.pc t = TPc.start → s.flag = true → CStep s (setPc s t TPc.done)
  | readFalse (s : CState) (t : Bool) :
      s.pc t = TPc.start → s.flag = false → CStep s (setPc s t TPc.waiting)
  | acquire (s : CState) (t : Bool) :
      s.pc t = TPc.waiting → s.lock = none →
      CStep s { setPc s t TPc.holding with lock := some t }
  | recheckTrue (s : CState) (t : Bool) :
      s.pc t = TPc.holding → s.flag = true →
      CStep s { setPc s t TPc.done with lock := none }
  | recheckFalse (s : CState) (t : Bool) :
      s.pc t = TPc.holding → s.flag = false →
      CStep s (setPc s t TPc.critical)
  | seedLoop (s : CState) (t : Bool) (env : SeedEnv) :
      s.pc t = TPc.critical →
      CStep s { setPc s t TPc.done with
                lock := none,
                flag := (seed_attempts env 5 0 s.db).ok || s.flag,
                db := (seed_attempts env 5 0 s.db).db }

/-- States reachable from `s0` by interleaved steps. -/
inductive CReach (s0 : CState) : CState → Prop
  | refl : CReach s0 s0
  | step {s s' : CState} : CReach s0 s → CStep s s' → CReach s0 s'

/-- Initial state of the process at its first concurrent requests: flag unset,
mutex free, both threads about to run `ensure_test_users`. -/
def cInit (db : Db) : CState :=
  { flag := false, lock := none, pc := fun _ => TPc.start, db := db }

/-- Demo data used to exercise the theorems on concrete inputs. -/
def demoUser1 : UserRow :=
  { id := 1, name := "山田太郎", email := "yamada@example.com",
    password_hash := generate_password_hash "password123" 11 }

/-- Second demo row. -/
def demoUser2 : UserRow :=
  { id := 2, name := "佐藤花子", email := "sato@example.com",
    password_hash := generate_password_hash "password123" 22 }

/-- A database holding the two demo rows. -/
def demoDb : Db := { users := [demoUser1, demoUser2], nextId := 3 }

/-- A submission of the first demo user's credentials. -/
def demoSub1 : LoginSubmission :=
  { email := "yamada@example.com", password := "password123" }

/-- A seed environment in which the database errors on every attempt. -/
def envAllFail : SeedEnv :=
  { err := fun _ => true, salt1 := fun _ => 0, salt2 := fun _ => 0 }

/-- A seed environment in which no attempt errors. -/
def envOk : SeedEnv :=
  { err := fun _ => false, salt1 := fun _ => 11, salt2 := fun _ => 22 }

/-- The mutex invariant: a thread sitting between lock acquisition and lock
release (re-check or seed loop) is the lock's holder. -/
def lockInv (s : CState) : Prop :=
  ∀ t : Bool, (s.pc t = TPc.holding ∨ s.pc t = TPc.critical) → s.lock = some t

/-- A lookup by email (without database error) that returns a row makes a
session holding that row's id an authenticated one: the row is in the table,
so the user loader finds a row with its id. -/
theorem auth_of_email_found (db : Db) (e : String) (row : UserRow)
    (h : get_user_by_email false db e = some row) :
    is_authenticated false db (some row.id) = true := by
  have hmem : row ∈ db.users :=
    List.mem_of_find?_eq_some (by simpa [get_user_by_email] using h)
  simp only [is_authenticated, current_user, Option.bind, get_user_by_id,
    if_neg Bool.false_ne_true]
  rw [List.find?_isSome]
  exact ⟨row, hmem, by simp⟩

/-- Claim C1 as stated is false at one input: a requester already
authenticated as demo user 2 POSTs demo user 1's credentials, which exist and
verify, yet the handler leaves the session on user 2 — no session is
established for user 1 (the handler only redirects, app.py:175-176). -/
theorem C1_counterexample :
    get_user_by_email false demoDb demoSub1.email = some demoUser1
    ∧ check_password_hash demoUser1.password_hash demoSub1.password = true
    ∧ (login demoDb (some 2) true demoSub1 false false).2 = some 2
    ∧ (login demoDb (some 2) true demoSub1 false false).2
        ≠ some demoUser1.id := by
  refine ⟨rfl, rfl, rfl, by decide⟩

/-- Claim C1 (amended): for every POST to /login by a requester WITHOUT an
active authenticated session, if the validated submission's email matches a
user and the password verifies against that user's stored hash, then the
handler sets the session to that user's id (an authenticated session) and
redirects to the dashboard; for every other credential pair the session is
unchanged.  (A requester that is already authenticated is redirected with its
existing session kept, per C10.) -/
theorem C1_login_session_iff_credentials
    (db : Db) (sess : Option Nat) (sub : LoginSubmission)
    (lookupErr loadErr : Bool)
    (hauth : is_authenticated loadErr db sess = false) :
    (∀ row : UserRow, get_user_by_email lookupErr db sub.email = some row →
      check_password_hash row.password_hash sub.password = true →
      login db sess true sub lookupErr loadErr
        = (Resp.redirect Route.dashboard (some success_flash), some row.id)
      ∧ is_authenticated false db (some row.id) = true)
    ∧ (∀ v : Bool,
        (∀ row : UserRow, get_user_by_email lookupErr db sub.email = some row →
          check_password_hash row.password_hash sub.password = false) →
        (login db sess v sub lookupErr loadErr).2 = sess) := by
  constructor
  · intro row hrow hcheck
    have hle : lookupErr = false := by
      cases lookupErr
      · rfl
      · simp [get_user_by_email] at hrow
    subst hle
    exact ⟨by simp [login, hauth, hrow, hcheck],
      auth_of_email_found db sub.email row hrow⟩
  · intro v hno
    cases v
    · simp [login, hauth]
    · cases hfind : get_user_by_email lookupErr db sub.email with
      | none => simp [login, hauth, hfind]
      | some row => simp [login, hauth, hfind, hno row hfind]

/-- Witness for C1 at concrete inputs: unauthenticated requester, demo user
1's valid credentials. -/
theorem C1_witness :
    login demoDb none true demoSub1 false false
      = (Resp.redirect Route.dashboard (some success_flash), some demoUser1.id)
    ∧ is_authenticated false demoDb (some demoUser1.id) = true :=
  (C1_login_session_iff_credentials demoDb none demoSub1 false false
    (by decide)).1 demoUser1 (by decide) (by decide)

/-- Claim C2: a GET of /dashboard without an active authenticated session is
redirected to the login page; with an active session the dashboard is
rendered with the current user's name and email. -/
theorem C2_dashboard_requires_session
    (db : Db) (sess : Option Nat) (loadErr : Bool) :
    (is_authenticated loadErr db sess = false →
      dashboard db sess loadErr
        = Resp.redirect Route.login (some login_required_flash))
    ∧ (∀ row : UserRow, current_user loadErr db sess = some row →
        dashboard db sess loadErr = Resp.dashboardPage row.name row.email) := by
  constructor
  · intro h
    unfold dashboard
    cases hcu : current_user loadErr db sess with
    | none => rfl
    | some row => simp [is_authenticated, hcu] at h
  · intro row h
    simp [dashboard, h]

/-- Witness for C2: no session redirects; demo user 1's session renders the
dashboard with name and email. -/
theorem C2_witness :
    dashboard demoDb none false
      = Resp.redirect Route.login (some login_required_flash)
    ∧ dashboard demoDb (some 1) false
      = Resp.dashboardPage "山田太郎" "yamada@example.com" :=
  ⟨(C2_dashboard_requires_session demoDb none false).1 (by decide),
   (C2_dashboard_requires_session demoDb (some 1) false).2 demoUser1
     (by decide)⟩

/-- Claim C3: for one and the same submission by an unauthenticated
requester, the three failure causes — no user with that email, wrong password
for an existing user, database error during the lookup — all produce the
identical response: the login form re-rendered with the one generic error
flash, and no session. -/
theorem C3_generic_failure_indistinguishable
    (sub : LoginSubmission) (db1 db2 db3 : Db) (row : UserRow)
    (h1 : get_user_by_email false db1 sub.email = none)
    (h2 : get_user_by_email false db2 sub.email = some row)
    (h3 : check_password_hash row.password_hash sub.password = false) :
    login db1 none true sub false false
      = (Resp.loginPage (some error_flash) sub.email, none)
    ∧ login db2 none true sub false false
      = (Resp.loginPage (some error_flash) sub.email, none)
    ∧ login db3 none true sub true false
      = (Resp.loginPage (some error_flash) sub.email, none) := by
  refine ⟨?_, ?_, ?_⟩
  · simp [login, is_authenticated, current_user, h1]
  · simp [login, is_authenticated, current_user, h2, h3]
  · simp [login, is_authenticated, current_user, get_user_by_email]

/-- Witness for C3: submission of a wrong password for demo user 1's email
against an empty table, the demo table, and an erroring database. -/
theorem C3_witness :
    login { users := [], nextId := 1 } none true
        { email := "yamada@example.com", password := "wrong" } false false
      = (Resp.loginPage (some error_flash) "yamada@example.com", none)
    ∧ login demoDb none true
        { email := "yamada@example.com", password := "wrong" } false false
      = (Resp.loginPage (some error_flash) "yamada@example.com", none)
    ∧ login demoDb none true
        { email := "yamada@example.com", password := "wrong" } true false
      = (Resp.loginPage (some error_flash) "yamada@example.com", none) :=
  C3_generic_failure_indistinguishable
    { email := "yamada@example.com", password := "wrong" }
    { users := [], nextId := 1 } demoDb demoDb demoUser1
    (by decide) (by decide) (by decide)

/-- Claim C4: a GET of /logout by an authenticated requester clears the
session and redirects to the home page, and a subsequent GET of /dashboard
with the resulting session redirects to the login page. -/
theorem C4_logout_destroys_session
    (db : Db) (sess : Option Nat) (loadErr : Bool)
    (h : is_authenticated loadErr db sess = true) :
    logout db sess loadErr = (Resp.redirect Route.index (some logout_flash), none)
    ∧ dashboard db (logout db sess loadErr).2 loadErr
      = Resp.redirect Route.login (some login_required_flash) := by
  constructor
  · simp [logout, h]
  · simp [logout, h, dashboard, current_user]

/-- Witness for C4 with demo user 1's session. -/
theorem C4_witness :
    logout demoDb (some 1) false
      = (Resp.redirect Route.index (some logout_flash), none)
    ∧ dashboard demoDb (logout demoDb (some 1) false).2 false
      = Resp.redirect Route.login (some login_required_flash) :=
  C4_logout_destroys_session demoDb (some 1) false (by decide)

/-- Claim C10: an authenticated requester is redirected to the dashboard by
GET / and by GET or POST /login alike, whatever it submits — no page is
rendered and the result does not depend on the submitted credentials, so
authentication is not re-run, and the session is kept. -/
theorem C10_authenticated_redirects
    (db : Db) (sess : Option Nat) (loadErr lookupErr : Bool) (v : Bool)
    (sub : LoginSubmission)
    (h : is_authenticated loadErr db sess = true) :
    index db sess loadErr = Resp.redirect Route.dashboard none
    ∧ login db sess v sub lookupErr loadErr
      = (Resp.redirect Route.dashboard none, sess) := by
  constructor <;> simp [index, login, h]

/-- Witness for C10: requester authenticated as demo user 2 submitting demo
user 1's valid credentials is only redirected, keeping its session. -/
theorem C10_witness :
    index demoDb (some 2) false = Resp.redirect Route.dashboard none
    ∧ login demoDb (some 2) true demoSub1 false false
      = (Resp.redirect Route.dashboard none, some 2) :=
  C10_authenticated_redirects demoDb (some 2) false false true demoSub1
    (by decide)

/-- Claim C5: against an empty users table, the (error-free) seed routine
inserts exactly the two fixed demo users, in order, with hashes generated
from the fixed password, and reports success; against a non-empty table it
changes nothing and still reports success. -/
theorem C5_seed_inserts_two_demo_users (db : Db) (s1 s2 : Nat) :
    (db.users = [] →
      create_test_users db false s1 s2 =
        ({ users := [
            { id := db.nextId, name := "山田太郎",
              email := "yamada@example.com",
              password_hash := generate_password_hash "password123" s1 },
            { id := db.nextId + 1, name := "佐藤花子",
              email := "sato@example.com",
              password_hash := generate_password_hash "password123" s2 }],
           nextId := db.nextId + 2 }, true))
    ∧ (db.users ≠ [] → create_test_users db false s1 s2 = (db, true)) := by
  constructor
  · intro h
    simp [create_test_users, insertUser, h]
  · intro h
    cases hu : db.users with
    | nil => exact absurd hu h
    | cons a l => simp [create_test_users, hu]

/-- Witness for C5: seeding the empty table yields exactly the demo table;
seeding the demo table changes nothing. -/
theorem C5_witness :
    create_test_users { users := [], nextId := 1 } false 11 22 = (demoDb, true)
    ∧ create_test_users demoDb false 33 44 = (demoDb, true) :=
  ⟨(C5_seed_inserts_two_demo_users { users := [], nextId := 1 } 11 22).1 rfl,
   (C5_seed_inserts_two_demo_users demoDb 33 44).2 (by decide)⟩

/-- Claim C6: the (error-free) seed routine is idempotent on every database:
running it twice leaves exactly the table that one run leaves, whatever salts
each run draws — the demo users are never duplicated. -/
theorem C6_seed_idempotent (db : Db) (s1 s2 s3 s4 : Nat) :
    (create_test_users (create_test_users db false s1 s2).1 false s3 s4).1
      = (create_test_users db false s1 s2).1 := by
  cases hu : db.users with
  | nil => simp [create_test_users, insertUser, hu]
  | cons a l => simp [create_test_users, hu]

/-- If the database errors on every attempt in range, the seed loop changes
nothing, uses up all its attempts, and sleeps 2 seconds after each. -/
theorem seed_attempts_all_fail (env : SeedEnv) (fuel : Nat) :
    ∀ (i : Nat) (db : Db), (∀ j, i ≤ j → j < i + fuel → env.err j = true) →
    seed_attempts env fuel i db
      = { ok := false, db := db, calls := fuel,
          sleeps := List.replicate fuel 2 } := by
  induction fuel with
  | zero => intro i db _; rfl
  | succ fuel ih =>
    intro i db h
    have he : env.err i = true := h i le_rfl (by omega)
    have hrest := ih (i + 1) db (fun j h1 h2 => h j (by omega) (by omega))
    simp [seed_attempts, create_test_users, he, hrest, List.replicate_succ]

/-- If the seed loop reports success, some attempt in range ran without a
database error. -/
theorem seed_attempts_ok_imp_success (env : SeedEnv) (fuel : Nat) :
    ∀ (i : Nat) (db : Db), (seed_attempts env fuel i db).ok = true →
    ∃ j, i ≤ j ∧ j < i + fuel ∧ env.err j = false := by
  induction fuel with
  | zero => intro i db h; simp [seed_attempts] at h
  | succ fuel ih =>
    intro i db h
    by_cases he : env.err i = true
    · simp [seed_attempts, create_test_users, he] at h
      obtain ⟨j, h1, h2, h3⟩ := ih (i + 1) db h
      exact ⟨j, by omega, by omega, h3⟩
    · exact ⟨i, le_rfl, by omega, by simpa using he⟩

/-- The seed loop calls `create_test_users` at most `fuel` times and every
sleep lasts 2 seconds. -/
theorem seed_attempts_bounded (env : SeedEnv) (fuel : Nat) :
    ∀ (i : Nat) (db : Db), (seed_attempts env fuel i db).calls ≤ fuel
      ∧ (seed_attempts env fuel i db).sleeps.all (fun d => d == 2) = true := by
  induction fuel with
  | zero => intro i db; simp [seed_attempts]
  | succ fuel ih =>
    intro i db
    simp only [seed_attempts]
    cases hr : (create_test_users db (env.err i) (env.salt1 i)
        (env.salt2 i)).2
    · have h := ih (i + 1) (create_test_users db (env.err i) (env.salt1 i)
        (env.salt2 i)).1
      simp [hr]
      refine ⟨h.1, ?_⟩
      simpa using h.2
    · simp [hr]

/-- Claim C7: once the process-wide flag is set, `ensure_test_users` is a
no-op returning at once with no database call and no sleep; if every attempt
errors, the whole state — flag included — is unchanged, so the next request
retries; and the flag can only end up set if it already was or some attempt
succeeded. -/
theorem C7_flag_set_only_on_success (st : AppState) (env : SeedEnv) :
    (st.initDone = true → ensure_test_users st env = (st, 0, []))
    ∧ ((∀ i, i < 5 → env.err i = true) → (ensure_test_users st env).1 = st)
    ∧ ((ensure_test_users st env).1.initDone = true →
        st.initDone = true ∨ ∃ i, i < 5 ∧ env.err i = false) := by
  obtain ⟨d, sdb⟩ := st
  refine ⟨?_, ?_, ?_⟩
  · intro h
    simp only at h
    simp [ensure_test_users, h]
  · intro h
    cases d
    · have hall := seed_attempts_all_fail env 5 0 sdb
        (fun j h0 h5 => h j (by omega))
      simp [ensure_test_users, hall]
    · simp [ensure_test_users]
  · intro h
    cases d
    · right
      have hok : (seed_attempts env 5 0 sdb).ok = true := by
        simpa [ensure_test_users] using h
      obtain ⟨j, h0, h5, hf⟩ := seed_attempts_ok_imp_success env 5 0 sdb hok
      exact ⟨j, by omega, hf⟩
    · left; rfl

/-- Witness for C7: with the flag set the call is a no-op; with the flag
unset and every attempt failing, the state is returned unchanged. -/
theorem C7_witness :
    ensure_test_users { initDone := true, db := demoDb } envAllFail
      = ({ initDone := true, db := demoDb }, 0, [])
    ∧ (ensure_test_users { initDone := false, db := demoDb } envAllFail).1
      = { initDone := false, db := demoDb } :=
  ⟨(C7_flag_set_only_on_success { initDone := true, db := demoDb }
      envAllFail).1 rfl,
   (C7_flag_set_only_on_success { initDone := false, db := demoDb }
      envAllFail).2.1 (fun _ _ => rfl)⟩

/-- Claim C8: one invocation of `ensure_test_users` calls
`create_test_users` at most 5 times, every delay between attempts is the
fixed 2 seconds, and the loop terminates whether or not seeding succeeds
(the model is a total function). -/
theorem C8_seed_loop_bounded (st : AppState) (env : SeedEnv) :
    (ensure_test_users st env).2.1 ≤ 5
    ∧ ((ensure_test_users st env).2.2.all (fun d => d == 2)) = true := by
  cases hd : st.initDone
  · have h := seed_attempts_bounded env 5 0 st.db
    simpa [ensure_test_users, hd] using h
  · simp [ensure_test_users, hd]

/-- Every step of the two-thread system preserves the mutex invariant. -/
theorem lockInv_step {s s' : CState} (h : lockInv s) (hs : CStep s s') :
    lockInv s' := by
  cases hs with
  | readTrue t hpc hfl =>
    intro u hu
    by_cases hut : u = t
    · subst hut; simp [setPc] at hu
    · simp only [setPc] at hu ⊢
      simp only [beq_iff_eq, if_neg hut] at hu
      exact h u hu
  | readFalse t hpc hfl =>
    intro u hu
    by_cases hut : u = t
    · subst hut; simp [setPc] at hu
    · simp only [setPc] at hu ⊢
      simp only [beq_iff_eq, if_neg hut] at hu
      exact h u hu
  | acquire t hpc hlk =>
    intro u hu
    by_cases hut : u = t
    · subst hut; rfl
    · simp only [setPc] at hu
      simp only [beq_iff_eq, if_neg hut] at hu
      have h1 := h u hu
      rw [hlk] at h1
      exact Option.noConfusion h1
  | recheckTrue t hpc hfl =>
    intro u hu
    by_cases hut : u = t
    · subst hut; simp [setPc] at hu
    · simp only [setPc] at hu
      simp only [beq_iff_eq, if_neg hut] at hu
      have h1 := h u hu
      have h2 := h t (Or.inl hpc)
      rw [h2] at h1
      exact absurd (Option.some.inj h1).symm hut
  | recheckFalse t hpc hfl =>
    intro u hu
    by_cases hut : u = t
    · subst hut
      simp only [setPc]
      exact h _ (Or.inl hpc)
    · simp only [setPc] at hu ⊢
      simp only [beq_iff_eq, if_neg hut] at hu
      exact h u hu
  | seedLoop t env hpc =>
    intro u hu
    by_cases hut : u = t
    · subst hut; simp [setPc] at hu
    · simp only [setPc] at hu
      simp only [beq_iff_eq, if_neg hut] at hu
      have h1 := h u hu
      have h2 := h t (Or.inr hpc)
      rw [h2] at h1
      exact absurd (Option.some.inj h1).symm hut

/-- The mutex invariant holds in every state reachable from the initial
state of the first concurrent requests. -/
theorem lockInv_reach {db0 : Db} {s : CState}
    (h : CReach (cInit db0) s) : lockInv s := by
  induction h with
  | refl =>
    intro t ht
    simp [cInit] at ht
  | step _ hs ih => exact lockInv_step ih hs

/-- Claim C9: in every state reachable from two concurrent first requests,
the two threads are never both inside the seed loop's insert phase — the
mutex serializes the critical section, so concurrent initial requests cannot
seed twice at once. -/
theorem C9_mutual_exclusion (db0 : Db) (s : CState)
    (h : CReach (cInit db0) s) :
    ¬(s.pc false = TPc.critical ∧ s.pc true = TPc.critical) := by
  rintro ⟨h0, h1⟩
  have hinv := lockInv_reach h
  have e0 := hinv false (Or.inr h0)
  have e1 := hinv true (Or.inr h1)
  rw [e0] at e1
  simp at e1

/-- Witness for C9 at the initial state itself. -/
theorem C9_witness :
    ¬((cInit demoDb).pc false = TPc.critical
      ∧ (cInit demoDb).pc true = TPc.critical) :=
  C9_mutual_exclusion demoDb (cInit demoDb) CReach.refl

end FlaskSample
